import Mathlib

/-!
Shallow embedding of the CDR report lifecycle of
app/webex_cdr_processor.py (together with the report-deletion entry of
app/webex_api.py and the validators of app/config/config.py): metrics
aggregation over CDR rows, the report poll loop, quota handling with
interactive remediation, and the orchestrating run_report.

Python exceptions are made explicit: a computation that can let an
exception escape returns a sum carrying the exception kind, and the
mutable metrics dictionary is threaded as an explicit state (mutation in
place means a partially mutated state survives an escaping exception).
-/

/-- A CDR row as produced by csv.DictReader: a finite mapping from field
name to string value, embedded as an association list whose first binding
for a key wins (dict keys are unique). -/
abbrev CDRRow := List (String × String)

/-- Models item.get(k, dflt) on a row. -/
def rowGet (item : CDRRow) (k dflt : String) : String :=
  match item.find? (fun p => p.1 == k) with
  | some p => p.2
  | none => dflt

/-- Whether the row has field k at all. -/
def rowHas (item : CDRRow) (k : String) : Bool :=
  (item.find? (fun p => p.1 == k)).isSome

/-- Models Python str.isdigit on one character, restricted to the
codepoint ranges exercised in this development: the ASCII decimal digits,
the Arabic-Indic decimal digits U+0660..U+0669, and the superscript
digits U+00B9, U+00B2, U+00B3 — which Python counts as digits although
int() rejects them (they are digits but not decimal). -/
def pyIsDigitChar (c : Char) : Bool :=
  (48 ≤ c.toNat && c.toNat ≤ 57)
  || (0x660 ≤ c.toNat && c.toNat ≤ 0x669)
  || c.toNat == 0xB9 || c.toNat == 0xB2 || c.toNat == 0xB3

/-- The decimal value Python int() assigns to one character: defined
exactly on the decimal digits of the ranges above, none on every other
character — in particular on the superscript digits. -/
def pyDecimalValChar (c : Char) : Option Nat :=
  if 48 ≤ c.toNat && c.toNat ≤ 57 then some (c.toNat - 48)
  else if 0x660 ≤ c.toNat && c.toNat ≤ 0x669 then some (c.toNat - 0x660)
  else none

/-- Models Python s.isdigit(): nonempty and every character a digit. -/
def pyIsDigit (s : String) : Bool :=
  s != "" && s.toList.all pyIsDigitChar

/-- Models Python int(s) on a string of digit characters — the only shape
it is handed under the isdigit guard in the source: succeeds with the
base-10 value iff every character is a decimal digit; none models the
ValueError raised otherwise. -/
def pyIntOfString (s : String) : Option Nat :=
  if s != "" && s.toList.all (fun c => (pyDecimalValChar c).isSome) then
    some (s.toList.foldl (fun acc c => acc * 10 + (pyDecimalValChar c).getD 0) 0)
  else none

/-- Models the expression
int(item.get(..Duration.., 0)) if item.get(..Duration.., ..).isdigit() else 0
appearing at lines 104-108, 117-121 and 151-154 of webex_cdr_processor.py;
none models an uncaught ValueError from int(). -/
def parseDuration (item : CDRRow) : Option Nat :=
  if pyIsDigit (rowGet item "Duration" "") then
    pyIntOfString (rowGet item "Duration" "")
  else some 0

/-- Lower-casing of one character, modelling Python str.lower on the
ASCII field values compared here. -/
def pyLowerChar (c : Char) : Char :=
  if 65 ≤ c.toNat ∧ c.toNat ≤ 90 then Char.ofNat (c.toNat + 32) else c

/-- Models Python s.lower() on ASCII strings. -/
def pyLower (s : String) : String :=
  String.mk (s.toList.map pyLowerChar)

/-- Models item.get(..Answered.., ..).lower() == ..true.. . -/
def pyAnswered (item : CDRRow) : Bool :=
  pyLower (rowGet item "Answered" "") == "true"

/-- Models item.get(..Call outcome reason.., ..).lower() == ..voicemail.. . -/
def pyVoicemailReason (item : CDRRow) : Bool :=
  pyLower (rowGet item "Call outcome reason" "") == "voicemail"

/-- Value of one ASCII digit character, none otherwise. -/
def asciiDigitVal (c : Char) : Option Nat :=
  if 48 ≤ c.toNat && c.toNat ≤ 57 then some (c.toNat - 48) else none

/-- Two-digit number. -/
def nat2 (a b : Char) : Option Nat := do
  let x ← asciiDigitVal a
  let y ← asciiDigitVal b
  pure (10 * x + y)

/-- Four-digit number. -/
def nat4 (a b c d : Char) : Option Nat := do
  let x ← nat2 a b
  let y ← nat2 c d
  pure (100 * x + y)

/-- Leap year in the Gregorian calendar. -/
def isLeap (y : Nat) : Bool :=
  (y % 4 == 0 && y % 100 != 0) || y % 400 == 0

/-- Number of days in a month. -/
def daysInMonth (y m : Nat) : Nat :=
  if m = 2 then (if isLeap y then 29 else 28)
  else if m = 4 ∨ m = 6 ∨ m = 9 ∨ m = 11 then 30 else 31

/-- Day number of a civil date on a linear scale (days since 0000-03-01,
standard era-based computation); only differences of results are
consumed, matching timedelta arithmetic on dates. -/
def daysFromCivil (y m d : Nat) : Nat :=
  let yy := if m ≤ 2 then y - 1 else y
  let era := yy / 400
  let yoe := yy % 400
  let mp := (m + 9) % 12
  let doy := (153 * mp + 2) / 5 + d - 1
  let doe := yoe * 365 + yoe / 4 - yoe / 100 + doy
  era * 146097 + doe

/-- Seconds of a civil date-time on a linear scale. -/
def civilSeconds (y mo d h mi s : Nat) : Nat :=
  daysFromCivil y mo d * 86400 + h * 3600 + mi * 60 + s

/-- Modelled from the spec: datetime.fromisoformat on the complete
timestamps YYYY-MM-DDxHH:MM:SS exchanged here (any single separator
character, as in CPython); every other string is a parse failure — the
ValueError is caught at the call site. Returns seconds on a linear time
scale so that subtraction of two results gives the
timedelta.total_seconds() of the source. -/
def parseIso (str : String) : Option Int :=
  match str.toList with
  | [y1, y2, y3, y4, '-', a1, a2, '-', b1, b2, _, h1, h2, ':', c1, c2, ':', e1, e2] => do
    let y ← nat4 y1 y2 y3 y4
    let mo ← nat2 a1 a2
    let d ← nat2 b1 b2
    let h ← nat2 h1 h2
    let mi ← nat2 c1 c2
    let s ← nat2 e1 e2
    if 1 ≤ y ∧ 1 ≤ mo ∧ mo ≤ 12 ∧ 1 ≤ d ∧ d ≤ daysInMonth y mo
        ∧ h ≤ 23 ∧ mi ≤ 59 ∧ s ≤ 59 then
      some ((civilSeconds y mo d h mi s : Nat) : Int)
    else none
  | _ => none

/-- The response-time branch of process_call_record (lines 166-176): the
samples appended for one row — one sample when both timestamp fields are
present (nonempty) and both parse, nothing otherwise (the ValueError is
caught and ignored). -/
def rtSamples (item : CDRRow) : List Int :=
  let a := rowGet item "Answer time" ""
  let s := rowGet item "Start time" ""
  if a != "" && s != "" then
    match parseIso a, parseIso s with
    | some ta, some ts => [ta - ts]
    | _, _ => []
  else []

/-- One per-department or per-user bucket of self.metrics. -/
structure SubMetrics where
  total_calls : Nat
  connected_calls : Nat
  voicemail_calls : Nat
  total_duration : Nat
deriving DecidableEq

/-- The zero bucket created on first occurrence of a key. -/
def zeroSub : SubMetrics := ⟨0, 0, 0, 0⟩

/-- The self.metrics dictionary of CDRReportProcessor; the two keyed
sub-dicts and the outcome dict are insertion-ordered association lists. -/
structure Metrics where
  total_duration : Nat
  total_calls : Nat
  connected_calls : Nat
  voicemail_calls : Nat
  response_times : List Int
  call_outcomes : List (String × Nat)
  department_calls : List (String × SubMetrics)
  user_calls : List (String × SubMetrics)
deriving DecidableEq

/-- Models self.metrics as initialised in the constructor. -/
def initialMetrics : Metrics := ⟨0, 0, 0, 0, [], [], [], []⟩

/-- Models d[k] = d.get(k, 0) + 1 on an insertion-ordered dict. -/
def alistIncr (l : List (String × Nat)) (k : String) : List (String × Nat) :=
  match l with
  | [] => [(k, 1)]
  | p :: rest => if p.1 == k then (p.1, p.2 + 1) :: rest else p :: alistIncr rest k

/-- Lazily create the bucket for k (zero counters) and update it with g;
models the conditional insertion followed by in-place mutation of the
source. -/
def upsert (l : List (String × SubMetrics)) (k : String) (g : SubMetrics → SubMetrics) :
    List (String × SubMetrics) :=
  match l with
  | [] => [(k, g zeroSub)]
  | p :: rest => if p.1 == k then (p.1, g p.2) :: rest else p :: upsert rest k g

/-- Sum of a counter over all buckets. -/
def bucketSum (l : List (String × SubMetrics)) (f : SubMetrics → Nat) : Nat :=
  (l.map (fun p => f p.2)).sum

/-- Sum of all outcome counts. -/
def outcomeSum (l : List (String × Nat)) : Nat :=
  (l.map (fun p => p.2)).sum

/-- Count stored under a label, 0 when the label is absent. -/
def lookupNat (l : List (String × Nat)) (k : String) : Nat :=
  match l.find? (fun p => p.1 == k) with
  | some p => p.2
  | none => 0

/-- The counter part of update_department_calls and update_user_calls:
total_calls += 1, then the answered / voicemail classification. -/
def subCounts (s : SubMetrics) (item : CDRRow) : SubMetrics :=
  let s1 := { s with total_calls := s.total_calls + 1 }
  if pyAnswered item then { s1 with connected_calls := s1.connected_calls + 1 }
  else if pyVoicemailReason item then { s1 with voicemail_calls := s1.voicemail_calls + 1 }
  else s1

/-- Adding the parsed duration to a bucket. -/
def subAdd (s : SubMetrics) (d : Nat) : SubMetrics :=
  { s with total_duration := s.total_duration + d }

/-- Result of one Python statement block over the mutable metrics: ok is
normal completion, exn an escaping exception; either way the metrics as
mutated so far are carried (mutation happens in place). -/
inductive StepResult where
  | ok (m : Metrics)
  | exn (m : Metrics)
deriving DecidableEq

/-- The metrics carried by a step result. -/
def StepResult.metrics : StepResult → Metrics
  | .ok m => m
  | .exn m => m

/-- Whether the step completed normally. -/
def StepResult.isOk : StepResult → Bool
  | .ok _ => true
  | .exn _ => false

/-- Department key with the literal Unknown fallback. -/
def deptKey (item : CDRRow) : String := rowGet item "Department ID" "Unknown"

/-- User key with the literal Unknown fallback. -/
def userKey (item : CDRRow) : String := rowGet item "User" "Unknown"

/-- Outcome label with the literal Unknown fallback. -/
def outcomeLabel (item : CDRRow) : String := rowGet item "Call outcome" "Unknown"

/-- Models update_department_calls (lines 96-108): the bucket creation and
the counter updates happen before the duration conversion, so on a
ValueError from int() the counters are already mutated — a path that is
unreachable from process_call_record, whose own conversion of the same
field has already succeeded by then. -/
def update_department_calls (m : Metrics) (item : CDRRow) : StepResult :=
  match parseDuration item with
  | none => .exn { m with
      department_calls := upsert m.department_calls (deptKey item) (fun s => subCounts s item) }
  | some d => .ok { m with
      department_calls := upsert m.department_calls (deptKey item)
        (fun s => subAdd (subCounts s item) d) }

/-- Models update_user_calls (lines 110-121), identical to the department
update with the User key. -/
def update_user_calls (m : Metrics) (item : CDRRow) : StepResult :=
  match parseDuration item with
  | none => .exn { m with
      user_calls := upsert m.user_calls (userKey item) (fun s => subCounts s item) }
  | some d => .ok { m with
      user_calls := upsert m.user_calls (userKey item)
        (fun s => subAdd (subCounts s item) d) }

/-- Models process_call_record (lines 151-183); exn models the ValueError
escaping from the duration conversion at line 154, before any counter is
touched. -/
def process_call_record (m : Metrics) (item : CDRRow) : StepResult :=
  match parseDuration item with
  | none => .exn m
  | some duration =>
    let m1 := { m with total_duration := m.total_duration + duration }
    let m2 := { m1 with total_calls := m1.total_calls + 1 }
    let m3 :=
      if pyAnswered item then { m2 with connected_calls := m2.connected_calls + 1 }
      else if pyVoicemailReason item then { m2 with voicemail_calls := m2.voicemail_calls + 1 }
      else m2
    let m4 := { m3 with response_times := m3.response_times ++ rtSamples item }
    let m5 := { m4 with call_outcomes := alistIncr m4.call_outcomes (outcomeLabel item) }
    match update_department_calls m5 item with
    | .exn e => .exn e
    | .ok m6 =>
      match update_user_calls m6 item with
      | .exn e => .exn e
      | .ok m7 => .ok m7

/-- Models process_all_cdr_records (lines 185-191): iterate the rows; the
except-TypeError handler there cannot fire for a list input, while a
ValueError raised by a row propagates past it, abandoning the remaining
rows with the metrics as mutated so far. -/
def process_all_cdr_records (m : Metrics) (rows : List CDRRow) : StepResult :=
  match rows with
  | [] => .ok m
  | item :: rest =>
    match process_call_record m item with
    | .ok m2 => process_all_cdr_records m2 rest
    | .exn e => .exn e

/-- The metrics left behind by a full processing run started on the fresh
accumulator of the constructor. -/
def finalMetrics (rows : List CDRRow) : Metrics :=
  (process_all_cdr_records initialMetrics rows).metrics

/-- Increment a counter by one when answered, by zero otherwise. -/
def connectedDelta (item : CDRRow) : Nat := if pyAnswered item then 1 else 0

/-- Increment for the voicemail counter: only when not answered and the
outcome reason is voicemail. -/
def voicemailDelta (item : CDRRow) : Nat :=
  if pyAnswered item then 0 else if pyVoicemailReason item then 1 else 0

/-- The net effect of one successfully processed row on the metrics, used
to reason about process_call_record. -/
def applyRecord (m : Metrics) (item : CDRRow) (d : Nat) : Metrics :=
  { total_duration := m.total_duration + d
    total_calls := m.total_calls + 1
    connected_calls := m.connected_calls + connectedDelta item
    voicemail_calls := m.voicemail_calls + voicemailDelta item
    response_times := m.response_times ++ rtSamples item
    call_outcomes := alistIncr m.call_outcomes (outcomeLabel item)
    department_calls := upsert m.department_calls (deptKey item)
      (fun s => subAdd (subCounts s item) d)
    user_calls := upsert m.user_calls (userKey item)
      (fun s => subAdd (subCounts s item) d) }

/-- One observable event of the poll loop of fetch_cdr_data: the
elapsed-time check against the 30-minute ceiling, a time.sleep(30), or a
report_status query (numbered in issue order). -/
inductive PollEvent where
  | timeoutCheck (elapsed : Nat)
  | sleep
  | query (idx : Nat)
deriving DecidableEq

/-- Models the poll loop of fetch_cdr_data (lines 68-81) with time
idealised: the elapsed clock advances by 30 per sleep and the status
query is instantaneous. The loop runs while the status is not done,
checking the timeout, sleeping, then querying. The structural fuel is an
upper bound on iterations that is never exhausted when
clock + 30 * fuel is at least 1831, since the clock then exceeds the
1800-second ceiling before the fuel runs out; the fuel-0 branch is
unreachable from the entry point below. Returns the event list and
whether the loop exited on done (false = the timeout return None). -/
def pollLoopF (statuses : Nat → String) : Nat → Nat → Nat → List PollEvent × Bool
  | 0, _, _ => ([], false)
  | fuel + 1, idx, clock =>
    if clock > 1800 then ([PollEvent.timeoutCheck clock], false)
    else if statuses idx == "done" then
      ([PollEvent.timeoutCheck clock, PollEvent.sleep, PollEvent.query idx], true)
    else
      let r := pollLoopF statuses fuel (idx + 1) (clock + 30)
      (PollEvent.timeoutCheck clock :: PollEvent.sleep :: PollEvent.query idx :: r.1, r.2)

/-- Entry into the poll loop: report_status starts as the string unknown,
which is not done, so the body always runs at least once, from elapsed
clock 0; 62 units of fuel satisfy 0 + 30 * 62 = 1860 which is at least
1831, so the fuel is never exhausted. -/
def pollLoop (statuses : Nat → String) : List PollEvent × Bool :=
  pollLoopF statuses 62 0 0

/-- A call issued to the remote report gateway. -/
inductive GatewayCall where
  | createDays (n : Int)
  | createRange (s e : String)
  | statusQuery (idx : Nat)
  | getLines
deriving DecidableEq

/-- Environment of one fetch_cdr_data invocation: what the gateway and the
configuration would answer. The report id returned by report creation is
an Option because wxcadm may return a falsy id. -/
structure FetchEnv where
  create_result : Option String
  statuses : Nat → String
  report_lines : List String
  start_date : String
  end_date : String

/-- The status queries contained in a poll trace, as gateway calls. -/
def pollCalls (t : List PollEvent) : List GatewayCall :=
  t.filterMap (fun e => match e with
    | PollEvent.query i => some (GatewayCall.statusQuery i)
    | _ => none)

/-- Splitting a character list at commas, accumulating the current field
in reverse. -/
def splitCommaAux : List Char → List Char → List String
  | [], acc => [String.mk acc.reverse]
  | c :: cs, acc =>
    if c = ',' then String.mk acc.reverse :: splitCommaAux cs []
    else splitCommaAux cs (c :: acc)

/-- Comma split of one CSV line, as Python str.split(comma). -/
def splitComma (s : String) : List String := splitCommaAux s.toList []

/-- Models csv.DictReader on the plain comma-separated fragment used here
(no quoting or escaping): the first line is the header, each later line
yields a row pairing header fields with that line's fields (zip drops
surplus fields on either side). -/
def dictReader (lines : List String) : List CDRRow :=
  match lines with
  | [] => []
  | header :: rest => rest.map (fun line => (splitComma header).zip (splitComma line))

/-- Python truthiness of the num_days argument (None and 0 are falsy). -/
def numDaysTruthy : Option Int → Bool
  | some n => n != 0
  | none => false

/-- Models fetch_cdr_data (lines 48-94), recording the gateway calls it
issues in order together with the Python return value: none models every
return None (creation failure in the day-count branch, timeout, empty
report lines — and the catch-all for gateway exceptions, whose trigger is
outside this environment); some carries the parsed rows and the report id
that was created (itself an Option, since the date branch never checks
it). The webex-not-initialised early exit is outside this model. -/
def fetch_cdr_data (env : FetchEnv) (num_days : Option Int) :
    List GatewayCall × Option (List CDRRow × Option String) :=
  let createCall :=
    if numDaysTruthy num_days then GatewayCall.createDays (num_days.getD 0)
    else GatewayCall.createRange env.start_date env.end_date
  if numDaysTruthy num_days && env.create_result.isNone then
    ([createCall], none)
  else
    let pr := pollLoop env.statuses
    if pr.2 then
      if env.report_lines.isEmpty then
        (createCall :: pollCalls pr.1 ++ [GatewayCall.getLines], none)
      else
        (createCall :: pollCalls pr.1 ++ [GatewayCall.getLines],
          some (dictReader env.report_lines, env.create_result))
    else
      (createCall :: pollCalls pr.1, none)

/-- A Python exception as relevant to the orchestrator boundary:
SystemExit (raised by sys.exit, a BaseException that except Exception
does not catch) versus any Exception-derived error. -/
inductive PyExn where
  | systemExit (code : Nat)
  | exc (msg : String)
deriving DecidableEq

/-- Environment of one run_report invocation: the answers of the gateway,
the operator, and the collaborators it consumes. Reports are modelled by
their Id strings. fetch_result stands for the value returned by
fetch_cdr_data_based_on_config (none when that call returned None). -/
structure Env where
  list_reports_result : Option (List String)
  delete_choice : String
  delete_id : String
  refetch_result : Option (List String)
  fetch_result : Option (List CDRRow × Option String)
  write_csv_raises : Bool
deriving DecidableEq

/-- Models handle_existing_reports (lines 200-232): returns the report ids
passed to delete_report during remediation and either the boolean result
or the escaping exception. A None from get_all_reports makes len() raise
TypeError; the abort choice calls sys.exit(1), raising SystemExit. -/
def handle_existing_reports (env : Env) : List String × Except PyExn Bool :=
  match env.list_reports_result with
  | none => ([], Except.error (PyExn.exc "TypeError: object of type NoneType has no len"))
  | some reports =>
    if reports.length = 50 then
      if env.delete_choice = "1" then
        match env.refetch_result with
        | none => ([env.delete_id], Except.error (PyExn.exc "TypeError: object of type NoneType has no len"))
        | some after => ([env.delete_id], Except.ok (after.length < 50))
      else if env.delete_choice = "2" then
        match env.refetch_result with
        | none => (reports, Except.error (PyExn.exc "TypeError: object of type NoneType has no len"))
        | some after => (reports, Except.ok (after.length < 50))
      else if env.delete_choice = "3" then
        ([], Except.error (PyExn.systemExit 1))
      else
        match env.refetch_result with
        | none => ([], Except.error (PyExn.exc "TypeError: object of type NoneType has no len"))
        | some after => ([], Except.ok (after.length < 50))
    else ([], Except.ok (reports.length < 50))

/-- Terminal behaviour of run_report towards its caller: a normal return
(also after except Exception caught an error), or an exception that
escaped the handler. -/
inductive RunResult where
  | returned
  | raisedSystemExit (code : Nat)
deriving DecidableEq

/-- Models run_report (lines 243-266). Returns the arguments of every
delete_report call made during the run, in order (remediation deletes
first), and the terminal behaviour. The except-Exception handler turns
every Exception-derived error into a normal return; SystemExit is not an
Exception and escapes. The report delete only happens at the end of the
fully successful branch: after the truthiness check on the fetched rows,
the CSV write, and the aggregation. -/
def run_report (env : Env) : List (Option String) × RunResult :=
  let h := handle_existing_reports env
  let dels := h.1.map some
  match h.2 with
  | Except.error (PyExn.systemExit c) => (dels, RunResult.raisedSystemExit c)
  | Except.error (PyExn.exc _) => (dels, RunResult.returned)
  | Except.ok false => (dels, RunResult.returned)
  | Except.ok true =>
    match env.fetch_result with
    | none => (dels, RunResult.returned)
    | some (cdr_data, report_id) =>
      if cdr_data.isEmpty then (dels, RunResult.returned)
      else if env.write_csv_raises then (dels, RunResult.returned)
      else
        match process_all_cdr_records initialMetrics cdr_data with
        | StepResult.exn _ => (dels, RunResult.returned)
        | StepResult.ok _ => (dels ++ [report_id], RunResult.returned)

/-- An input value of the NUMBER_OF_DAYS_CDR_REPORT validator, in the
modelled fragment where string inputs have already been converted to
integers. -/
inductive ConfigVal where
  | emptyStr
  | noneVal
  | intVal (n : Int)
deriving DecidableEq

/-- Models Config.validate_number_of_days_for_cdr_report
(config.py lines 87-101): the empty string becomes None, None and 0 pass
through, and any other integer must lie in 1..31. -/
def validate_number_of_days_for_cdr_report : ConfigVal → Except String (Option Int)
  | ConfigVal.emptyStr => Except.ok none
  | ConfigVal.noneVal => Except.ok none
  | ConfigVal.intVal n =>
    if n = 0 then Except.ok (some 0)
    else if 1 ≤ n ∧ n ≤ 31 then Except.ok (some n)
    else Except.error "NUMBER_OF_DAYS_CDR_REPORT must be an integer between 1 and 31"

/-- Models datetime.strptime with the YYYY-MM-DD format as used by
Config.validate_dates, returning the date on the linear day scale; none
models the ValueError on any other input. -/
def parseDateCivil (s : String) : Option Nat :=
  match s.toList with
  | [y1, y2, y3, y4, '-', a1, a2, '-', b1, b2] => do
    let y ← nat4 y1 y2 y3 y4
    let mo ← nat2 a1 a2
    let d ← nat2 b1 b2
    if 1 ≤ y ∧ 1 ≤ mo ∧ mo ≤ 12 ∧ 1 ≤ d ∧ d ≤ daysInMonth y mo then
      some (daysFromCivil y mo d)
    else none
  | _ => none

/-- Models Config.validate_dates (config.py lines 55-68): with both dates
configured, both must parse, the end must not precede the start, and the
range must not exceed 30 days; with either absent the validator passes. -/
def validate_dates (sd ed : Option String) : Except String Unit :=
  match sd, ed with
  | some s, some e =>
    match parseDateCivil s, parseDateCivil e with
    | some ds, some de =>
      if de < ds then Except.error "END_DATE cannot be earlier than START_DATE"
      else if de - ds > 30 then Except.error "Date range should not exceed 30 days"
      else Except.ok ()
    | _, _ => Except.error "ValueError: time data does not match format"
  | _, _ => Except.ok ()

/-- Two rows, the first with a superscript-two duration: a digit by
str.isdigit that int() rejects. -/
def badRows : List CDRRow := [[("Duration", "²")], []]

/-- A run at capacity where the operator chooses option 3 (exit). -/
def envAbort : Env :=
  { list_reports_result := some (List.replicate 50 "r")
    delete_choice := "3"
    delete_id := ""
    refetch_result := some []
    fetch_result := none
    write_csv_raises := false }

/-- A run below capacity whose fetch returned one parsed row under report
id R1, and whose CSV write raises. -/
def envPersistFail : Env :=
  { list_reports_result := some ["a"]
    delete_choice := ""
    delete_id := ""
    refetch_result := some []
    fetch_result := some ([[("Answered", "true")]], some "R1")
    write_csv_raises := true }

/-- The same run with the CSV write succeeding. -/
def envPersistOk : Env :=
  { list_reports_result := some ["a"]
    delete_choice := ""
    delete_id := ""
    refetch_result := some []
    fetch_result := some ([[("Answered", "true")]], some "R1")
    write_csv_raises := false }

/-- A fetch whose report completes at once but returns no lines. -/
def envEmptyDone : FetchEnv :=
  { create_result := some "R7"
    statuses := fun _ => "done"
    report_lines := []
    start_date := ""
    end_date := "" }

/-- A fetch whose report never completes (poll loop times out). -/
def envNeverDone : FetchEnv :=
  { create_result := some "R7"
    statuses := fun _ => "pending"
    report_lines := ["h", "1"]
    start_date := ""
    end_date := "" }

/-- A fetch whose report creation returned no id. -/
def envNoId : FetchEnv :=
  { create_result := none
    statuses := fun _ => "done"
    report_lines := ["h", "1"]
    start_date := ""
    end_date := "" }

/-- A fetch whose report completes at once with one data line. -/
def envCreateOk : FetchEnv :=
  { create_result := some "R9"
    statuses := fun _ => "done"
    report_lines := ["h", "1"]
    start_date := ""
    end_date := "" }

theorem subCounts_total_calls (s : SubMetrics) (item : CDRRow) :
    (subCounts s item).total_calls = s.total_calls + 1 := by
  by_cases h1 : pyAnswered item <;> by_cases h2 : pyVoicemailReason item <;>
    simp [subCounts, h1, h2]

theorem subCounts_connected_calls (s : SubMetrics) (item : CDRRow) :
    (subCounts s item).connected_calls = s.connected_calls + connectedDelta item := by
  by_cases h1 : pyAnswered item <;> by_cases h2 : pyVoicemailReason item <;>
    simp [subCounts, connectedDelta, h1, h2]

theorem subCounts_voicemail_calls (s : SubMetrics) (item : CDRRow) :
    (subCounts s item).voicemail_calls = s.voicemail_calls + voicemailDelta item := by
  by_cases h1 : pyAnswered item <;> by_cases h2 : pyVoicemailReason item <;>
    simp [subCounts, voicemailDelta, h1, h2]

theorem subCounts_total_duration (s : SubMetrics) (item : CDRRow) :
    (subCounts s item).total_duration = s.total_duration := by
  by_cases h1 : pyAnswered item <;> by_cases h2 : pyVoicemailReason item <;>
    simp [subCounts, h1, h2]

theorem process_call_record_eq (m : Metrics) (item : CDRRow) :
    process_call_record m item =
      match parseDuration item with
      | none => StepResult.exn m
      | some d => StepResult.ok (applyRecord m item d) := by
  cases h : parseDuration item with
  | none => simp [process_call_record, h]
  | some d =>
    by_cases h1 : pyAnswered item
    · simp [process_call_record, h, update_department_calls, update_user_calls,
        applyRecord, connectedDelta, voicemailDelta, h1]
    · by_cases h2 : pyVoicemailReason item <;>
        simp [process_call_record, h, update_department_calls, update_user_calls,
          applyRecord, connectedDelta, voicemailDelta, h1, h2]

theorem process_all_preserves (P : Metrics → Prop)
    (hstep : ∀ (m : Metrics) (item : CDRRow) (d : Nat), P m → P (applyRecord m item d)) :
    ∀ (rows : List CDRRow) (m : Metrics), P m →
      P (process_all_cdr_records m rows).metrics := by
  intro rows
  induction rows with
  | nil =>
    intro m hm
    simpa [process_all_cdr_records, StepResult.metrics] using hm
  | cons item rest ih =>
    intro m hm
    cases h : parseDuration item with
    | none =>
      have he : process_call_record m item = StepResult.exn m := by
        rw [process_call_record_eq, h]
      simp [process_all_cdr_records, he, StepResult.metrics, hm]
    | some d =>
      have ho : process_call_record m item = StepResult.ok (applyRecord m item d) := by
        rw [process_call_record_eq, h]
      simp only [process_all_cdr_records, ho]
      exact ih _ (hstep m item d hm)

theorem bucketSum_upsert (l : List (String × SubMetrics)) (k : String)
    (g : SubMetrics → SubMetrics) (f : SubMetrics → Nat) (c : Nat)
    (hz : f zeroSub = 0) (hg : ∀ s, f (g s) = f s + c) :
    bucketSum (upsert l k g) f = bucketSum l f + c := by
  induction l with
  | nil => simp [upsert, bucketSum, hg, hz]
  | cons p rest ih =>
    by_cases hp : p.1 == k
    · simp only [upsert, hp, if_pos, bucketSum, List.map_cons, List.sum_cons, hg]
      omega
    · have hp2 : (p.1 == k) = false := by simpa using hp
      simp only [upsert, hp2, Bool.false_eq_true, if_false, bucketSum, List.map_cons,
        List.sum_cons] at ih ⊢
      omega

theorem outcomeSum_alistIncr (l : List (String × Nat)) (k : String) :
    outcomeSum (alistIncr l k) = outcomeSum l + 1 := by
  induction l with
  | nil => simp [alistIncr, outcomeSum]
  | cons p rest ih =>
    by_cases hp : p.1 == k
    · simp only [alistIncr, hp, if_pos, outcomeSum, List.map_cons, List.sum_cons]
      omega
    · have hp2 : (p.1 == k) = false := by simpa using hp
      simp only [alistIncr, hp2, Bool.false_eq_true, if_false, outcomeSum, List.map_cons,
        List.sum_cons] at ih ⊢
      omega

theorem lookupNat_alistIncr_self (l : List (String × Nat)) (k : String) :
    lookupNat (alistIncr l k) k = lookupNat l k + 1 := by
  induction l with
  | nil => simp [alistIncr, lookupNat, List.find?]
  | cons p rest ih =>
    by_cases hp : p.1 == k
    · simp [alistIncr, hp, lookupNat, List.find?]
    · have hp2 : (p.1 == k) = false := by simpa using hp
      simp only [alistIncr, hp2, Bool.false_eq_true, if_false] at ih ⊢
      simpa [lookupNat, List.find?, hp2] using ih

theorem lookupNat_alistIncr_other (l : List (String × Nat)) (k q : String)
    (hq : q ≠ k) :
    lookupNat (alistIncr l k) q = lookupNat l q := by
  induction l with
  | nil =>
    have : (k == q) = false := by simp [beq_iff_eq]; exact fun h => hq h.symm
    simp [alistIncr, lookupNat, List.find?, this]
  | cons p rest ih =>
    by_cases hp : p.1 == k
    · have hkq : (k == q) = false := by simp [beq_iff_eq]; exact fun h => hq h.symm
      have hpq : (p.1 == q) = false := by
        have hpk : p.1 = k := by simpa [beq_iff_eq] using hp
        simp [beq_iff_eq, hpk]; exact fun h => hq h.symm
      simp [alistIncr, hp, lookupNat, List.find?, hkq, hpq]
    · by_cases hpq : p.1 == q
      · simp [alistIncr, hp, lookupNat, List.find?, hpq]
      · have hp2 : (p.1 == k) = false := by simpa using hp
        have hpq2 : (p.1 == q) = false := by simpa using hpq
        simp only [alistIncr, hp2, Bool.false_eq_true, if_false] at ih ⊢
        simpa [lookupNat, List.find?, hpq2] using ih

theorem upsert_sum_total_calls (l : List (String × SubMetrics)) (k : String)
    (item : CDRRow) (d : Nat) :
    bucketSum (upsert l k (fun s => subAdd (subCounts s item) d)) (fun s => s.total_calls)
      = bucketSum l (fun s => s.total_calls) + 1 :=
  bucketSum_upsert l k _ _ 1 rfl
    (fun s => by simpa [subAdd] using subCounts_total_calls s item)

theorem upsert_sum_connected_calls (l : List (String × SubMetrics)) (k : String)
    (item : CDRRow) (d : Nat) :
    bucketSum (upsert l k (fun s => subAdd (subCounts s item) d)) (fun s => s.connected_calls)
      = bucketSum l (fun s => s.connected_calls) + connectedDelta item :=
  bucketSum_upsert l k _ _ (connectedDelta item) rfl
    (fun s => by simpa [subAdd] using subCounts_connected_calls s item)

theorem upsert_sum_voicemail_calls (l : List (String × SubMetrics)) (k : String)
    (item : CDRRow) (d : Nat) :
    bucketSum (upsert l k (fun s => subAdd (subCounts s item) d)) (fun s => s.voicemail_calls)
      = bucketSum l (fun s => s.voicemail_calls) + voicemailDelta item :=
  bucketSum_upsert l k _ _ (voicemailDelta item) rfl
    (fun s => by simpa [subAdd] using subCounts_voicemail_calls s item)

theorem upsert_sum_total_duration (l : List (String × SubMetrics)) (k : String)
    (item : CDRRow) (d : Nat) :
    bucketSum (upsert l k (fun s => subAdd (subCounts s item) d)) (fun s => s.total_duration)
      = bucketSum l (fun s => s.total_duration) + d :=
  bucketSum_upsert l k _ _ d rfl
    (fun s => by simp [subAdd, subCounts_total_duration])

/-- C1: the claim that total_calls always equals the number of rows fed to
aggregation fails on the code: a Duration of a superscript-two character
passes str.isdigit but makes int() raise ValueError, which
process_all_cdr_records does not catch (it catches only TypeError), so
the run aborts with no row counted — here two rows yield total_calls 0. -/
theorem c1_superscript_duration_aborts_counting :
    badRows.length = 2
    ∧ process_all_cdr_records initialMetrics badRows = StepResult.exn initialMetrics
    ∧ (finalMetrics badRows).total_calls = 0
    ∧ (finalMetrics badRows).total_calls ≠ badRows.length := by
  refine ⟨rfl, by rfl, rfl, by decide⟩

/-- C3: the claim that duration parsing never raises fails on the code:
the superscript-two character is a digit for str.isdigit yet int()
rejects it, so the parse raises ValueError instead of yielding 0 (none in
this embedding models the raise escaping process_call_record before any
counter is touched). The remaining conjuncts confirm the intended cases:
all-decimal strings parse to their value, and empty, non-numeric, signed
and decimal-point strings are treated as 0. -/
theorem c3_duration_parse_raises_on_superscript_digit :
    pyIsDigit "²" = true
    ∧ pyIntOfString "²" = none
    ∧ parseDuration [("Duration", "²")] = none
    ∧ process_call_record initialMetrics [("Duration", "²")] = StepResult.exn initialMetrics
    ∧ parseDuration [("Duration", "120")] = some 120
    ∧ parseDuration [("Duration", "")] = some 0
    ∧ parseDuration [("Duration", "abc")] = some 0
    ∧ parseDuration [("Duration", "-5")] = some 0
    ∧ parseDuration [("Duration", "12.5")] = some 0
    ∧ parseDuration [] = some 0 := by
  refine ⟨rfl, rfl, rfl, by rfl, rfl, rfl, rfl, rfl, rfl, rfl⟩

/-- C2: classification of each successfully ingested row is
first-match-wins — an answered row increments connected_calls and leaves
voicemail_calls unchanged even when the outcome reason is voicemail; a
non-answered row with a voicemail outcome reason increments only
voicemail_calls; any other row increments neither — and consequently
connected_calls + voicemail_calls never exceeds total_calls after any
sequence of ingests into the fresh accumulator. -/
theorem c2_first_match_wins_and_bound :
    (∀ (m : Metrics) (item : CDRRow) (m2 : Metrics),
      process_call_record m item = StepResult.ok m2 →
        (pyAnswered item = true →
          m2.connected_calls = m.connected_calls + 1
          ∧ m2.voicemail_calls = m.voicemail_calls)
        ∧ (pyAnswered item = false → pyVoicemailReason item = true →
          m2.voicemail_calls = m.voicemail_calls + 1
          ∧ m2.connected_calls = m.connected_calls)
        ∧ (pyAnswered item = false → pyVoicemailReason item = false →
          m2.connected_calls = m.connected_calls
          ∧ m2.voicemail_calls = m.voicemail_calls))
    ∧ (∀ rows : List CDRRow,
        (finalMetrics rows).connected_calls + (finalMetrics rows).voicemail_calls
          ≤ (finalMetrics rows).total_calls) := by
  constructor
  · intro m item m2 h
    rw [process_call_record_eq] at h
    cases hp : parseDuration item with
    | none => rw [hp] at h; exact absurd h (by simp)
    | some d =>
      rw [hp] at h
      have hm2 : m2 = applyRecord m item d := by
        have := h
        simpa using this.symm
      subst hm2
      refine ⟨?_, ?_, ?_⟩
      · intro h1
        simp [applyRecord, connectedDelta, voicemailDelta, h1]
      · intro h1 h2
        simp [applyRecord, connectedDelta, voicemailDelta, h1, h2]
      · intro h1 h2
        simp [applyRecord, connectedDelta, voicemailDelta, h1, h2]
  · intro rows
    have inv := process_all_preserves
      (fun m => m.connected_calls + m.voicemail_calls ≤ m.total_calls)
      (fun m item d hm => by
        simp only [applyRecord]
        have : connectedDelta item + voicemailDelta item ≤ 1 := by
          by_cases h1 : pyAnswered item <;> by_cases h2 : pyVoicemailReason item <;>
            simp [connectedDelta, voicemailDelta, h1, h2]
        omega)
      rows initialMetrics (by simp [initialMetrics])
    exact inv

/-- C2 witness: an answered row whose outcome reason is also voicemail,
ingested into the fresh accumulator, increments connected_calls to 1 and
leaves voicemail_calls at 0. -/
theorem c2_first_match_wins_and_bound_app :
    (process_call_record initialMetrics
        [("Answered", "TRUE"), ("Call outcome reason", "Voicemail")]).metrics.connected_calls
      = initialMetrics.connected_calls + 1
    ∧ (process_call_record initialMetrics
        [("Answered", "TRUE"), ("Call outcome reason", "Voicemail")]).metrics.voicemail_calls
      = initialMetrics.voicemail_calls := by
  have h := (c2_first_match_wins_and_bound.1 initialMetrics
    [("Answered", "TRUE"), ("Call outcome reason", "Voicemail")]
    ((process_call_record initialMetrics
      [("Answered", "TRUE"), ("Call outcome reason", "Voicemail")]).metrics)
    (by rfl)).1 (by rfl)
  exact h

/-- C4: after any sequence of rows processed from the fresh accumulator,
the global totals agree with the sums over the per-department buckets and
with the sums over the per-user buckets, for total_duration, total_calls,
connected_calls and voicemail_calls alike — the three independently
computed aggregates stay consistent (also across a run aborted by a bad
row, since the abort happens before any counter of that row is touched). -/
theorem c4_global_bucket_totals_agree (rows : List CDRRow) :
    bucketSum (finalMetrics rows).department_calls (fun s => s.total_duration)
        = (finalMetrics rows).total_duration
    ∧ bucketSum (finalMetrics rows).user_calls (fun s => s.total_duration)
        = (finalMetrics rows).total_duration
    ∧ bucketSum (finalMetrics rows).department_calls (fun s => s.total_calls)
        = (finalMetrics rows).total_calls
    ∧ bucketSum (finalMetrics rows).user_calls (fun s => s.total_calls)
        = (finalMetrics rows).total_calls
    ∧ bucketSum (finalMetrics rows).department_calls (fun s => s.connected_calls)
        = (finalMetrics rows).connected_calls
    ∧ bucketSum (finalMetrics rows).user_calls (fun s => s.connected_calls)
        = (finalMetrics rows).connected_calls
    ∧ bucketSum (finalMetrics rows).department_calls (fun s => s.voicemail_calls)
        = (finalMetrics rows).voicemail_calls
    ∧ bucketSum (finalMetrics rows).user_calls (fun s => s.voicemail_calls)
        = (finalMetrics rows).voicemail_calls := by
  exact process_all_preserves
    (fun m =>
      bucketSum m.department_calls (fun s => s.total_duration) = m.total_duration
      ∧ bucketSum m.user_calls (fun s => s.total_duration) = m.total_duration
      ∧ bucketSum m.department_calls (fun s => s.total_calls) = m.total_calls
      ∧ bucketSum m.user_calls (fun s => s.total_calls) = m.total_calls
      ∧ bucketSum m.department_calls (fun s => s.connected_calls) = m.connected_calls
      ∧ bucketSum m.user_calls (fun s => s.connected_calls) = m.connected_calls
      ∧ bucketSum m.department_calls (fun s => s.voicemail_calls) = m.voicemail_calls
      ∧ bucketSum m.user_calls (fun s => s.voicemail_calls) = m.voicemail_calls)
    (fun m item d hm => by
      obtain ⟨h1, h2, h3, h4, h5, h6, h7, h8⟩ := hm
      refine ⟨?_, ?_, ?_, ?_, ?_, ?_, ?_, ?_⟩ <;>
        simp only [applyRecord, upsert_sum_total_duration, upsert_sum_total_calls,
          upsert_sum_connected_calls, upsert_sum_voicemail_calls, h1, h2, h3, h4,
          h5, h6, h7, h8])
    rows initialMetrics
    (by simp [initialMetrics, bucketSum])

/-- C9: after any sequence of rows processed from the fresh accumulator,
the outcome counts sum to total_calls; each successfully ingested row
increments exactly one outcome label — the value of its Call outcome
field — leaving every other label unchanged, and a row without that field
is booked under the literal label Unknown. -/
theorem c9_outcome_counts_partition_total :
    (∀ rows : List CDRRow,
      outcomeSum (finalMetrics rows).call_outcomes = (finalMetrics rows).total_calls)
    ∧ (∀ (m : Metrics) (item : CDRRow) (m2 : Metrics),
      process_call_record m item = StepResult.ok m2 →
        lookupNat m2.call_outcomes (outcomeLabel item)
            = lookupNat m.call_outcomes (outcomeLabel item) + 1
        ∧ ∀ q : String, q ≠ outcomeLabel item →
            lookupNat m2.call_outcomes q = lookupNat m.call_outcomes q)
    ∧ (∀ item : CDRRow, rowHas item "Call outcome" = false →
        outcomeLabel item = "Unknown") := by
  refine ⟨?_, ?_, ?_⟩
  · intro rows
    exact process_all_preserves
      (fun m => outcomeSum m.call_outcomes = m.total_calls)
      (fun m item d hm => by
        simp only [applyRecord, outcomeSum_alistIncr, hm])
      rows initialMetrics (by simp [initialMetrics, outcomeSum])
  · intro m item m2 h
    rw [process_call_record_eq] at h
    cases hp : parseDuration item with
    | none => rw [hp] at h; exact absurd h (by simp)
    | some d =>
      rw [hp] at h
      have hm2 : m2 = applyRecord m item d := by simpa using h.symm
      subst hm2
      constructor
      · simp only [applyRecord]
        exact lookupNat_alistIncr_self m.call_outcomes (outcomeLabel item)
      · intro q hq
        simp only [applyRecord]
        exact lookupNat_alistIncr_other m.call_outcomes (outcomeLabel item) q hq
  · intro item h
    unfold outcomeLabel rowGet
    unfold rowHas at h
    cases hf : List.find? (fun p => p.1 == "Call outcome") item with
    | none => rfl
    | some p => rw [hf] at h; simp at h

/-- C9 witness: a row without a Call outcome field, ingested into the
fresh accumulator, raises the count of the Unknown label from 0 to 1 and
leaves the count of any other label, for example ORIGINATING, at 0. -/
theorem c9_outcome_counts_partition_total_app :
    lookupNat (process_call_record initialMetrics
        [("Answered", "true")]).metrics.call_outcomes "Unknown" = 1
    ∧ lookupNat (process_call_record initialMetrics
        [("Answered", "true")]).metrics.call_outcomes "ORIGINATING" = 0
    ∧ outcomeLabel [("Answered", "true")] = "Unknown" := by
  have hlab : outcomeLabel [("Answered", "true")] = "Unknown" :=
    c9_outcome_counts_partition_total.2.2 [("Answered", "true")] (by rfl)
  have h := c9_outcome_counts_partition_total.2.1 initialMetrics
    [("Answered", "true")]
    ((process_call_record initialMetrics [("Answered", "true")]).metrics)
    (by rfl)
  refine ⟨?_, ?_, hlab⟩
  · have := h.1
    rw [hlab] at this
    simpa [initialMetrics, lookupNat] using this
  · have hne : ("ORIGINATING" : String) ≠ outcomeLabel [("Answered", "true")] := by
      rw [hlab]; decide
    have := h.2 "ORIGINATING" hne
    simpa [initialMetrics, lookupNat] using this

theorem pollLoopF_head (statuses : Nat → String) (fuel idx clock : Nat)
    (hc : ¬ clock > 1800) (hf : 0 < fuel) :
    ∃ rest, (pollLoopF statuses fuel idx clock).1
      = PollEvent.timeoutCheck clock :: PollEvent.sleep :: PollEvent.query idx :: rest := by
  cases fuel with
  | zero => omega
  | succ f =>
    by_cases hd : statuses idx == "done"
    · exact ⟨[], by simp [pollLoopF, hc, hd]⟩
    · exact ⟨(pollLoopF statuses f (idx + 1) (clock + 30)).1, by simp [pollLoopF, hc, hd]⟩

theorem pollLoopF_head_check (statuses : Nat → String) (fuel idx clock : Nat) :
    (pollLoopF statuses fuel idx clock).1 = []
    ∨ ∃ c rest, (pollLoopF statuses fuel idx clock).1 = PollEvent.timeoutCheck c :: rest := by
  cases fuel with
  | zero => left; rfl
  | succ f =>
    right
    by_cases hc : clock > 1800
    · exact ⟨clock, [], by simp [pollLoopF, hc]⟩
    · by_cases hd : statuses idx == "done"
      · exact ⟨clock, [PollEvent.sleep, PollEvent.query idx], by simp [pollLoopF, hc, hd]⟩
      · exact ⟨clock,
          PollEvent.sleep :: PollEvent.query idx
            :: (pollLoopF statuses f (idx + 1) (clock + 30)).1,
          by simp [pollLoopF, hc, hd]⟩

theorem pollLoopF_sleep_preceded (statuses : Nat → String) :
    ∀ (fuel idx clock j : Nat),
      (pollLoopF statuses fuel idx clock).1.get? (j + 1) = some PollEvent.sleep →
      ∃ c, (pollLoopF statuses fuel idx clock).1.get? j = some (PollEvent.timeoutCheck c) := by
  intro fuel
  induction fuel with
  | zero => intro idx clock j h; simp [pollLoopF] at h
  | succ f ih =>
    intro idx clock j h
    by_cases hc : clock > 1800
    · rw [show pollLoopF statuses (f + 1) idx clock
          = ([PollEvent.timeoutCheck clock], false) by simp [pollLoopF, hc]] at h ⊢
      cases j with
      | zero => simp at h
      | succ n => simp at h
    · by_cases hd : statuses idx == "done"
      · rw [show pollLoopF statuses (f + 1) idx clock
            = ([PollEvent.timeoutCheck clock, PollEvent.sleep, PollEvent.query idx], true)
            by simp [pollLoopF, hc, hd]] at h ⊢
        match j with
        | 0 => exact ⟨clock, rfl⟩
        | 1 => simp at h
        | n + 2 => simp at h
      · rw [show (pollLoopF statuses (f + 1) idx clock).1
            = PollEvent.timeoutCheck clock :: PollEvent.sleep :: PollEvent.query idx
              :: (pollLoopF statuses f (idx + 1) (clock + 30)).1
            by simp [pollLoopF, hc, hd]] at h ⊢
        match j with
        | 0 => exact ⟨clock, rfl⟩
        | 1 => simp at h
        | 2 =>
          simp only [List.get?_cons_succ] at h ⊢
          rcases pollLoopF_head_check statuses f (idx + 1) (clock + 30) with h0 | ⟨c, rest, h0⟩
          · rw [h0] at h; simp at h
          · rw [h0] at h ⊢
            simp at h
        | n + 3 =>
          simp only [List.get?_cons_succ] at h ⊢
          exact ih (idx + 1) (clock + 30) n h

theorem getLast?_cons_of_ne_nil {α : Type} (a : α) (l : List α) (h : l ≠ []) :
    (a :: l).getLast? = l.getLast? := by
  cases l with
  | nil => exact absurd rfl h
  | cons b bs => simp [List.getLast?_cons_cons]

theorem pollLoopF_timeout_last (statuses : Nat → String) :
    ∀ (fuel idx clock : Nat), 0 < fuel → 1831 ≤ clock + 30 * fuel →
      (pollLoopF statuses fuel idx clock).2 = false →
      ∃ c, (pollLoopF statuses fuel idx clock).1.getLast?
        = some (PollEvent.timeoutCheck c) := by
  intro fuel
  induction fuel with
  | zero => intro idx clock hf; omega
  | succ f ih =>
    intro idx clock _ hs h
    by_cases hc : clock > 1800
    · exact ⟨clock, by simp [pollLoopF, hc]⟩
    · by_cases hd : statuses idx == "done"
      · rw [show (pollLoopF statuses (f + 1) idx clock).2 = true
            by simp [pollLoopF, hc, hd]] at h
        simp at h
      · have hrec2 : (pollLoopF statuses (f + 1) idx clock).2
            = (pollLoopF statuses f (idx + 1) (clock + 30)).2 := by
          simp [pollLoopF, hc, hd]
        have hrec1 : (pollLoopF statuses (f + 1) idx clock).1
            = PollEvent.timeoutCheck clock :: PollEvent.sleep :: PollEvent.query idx
              :: (pollLoopF statuses f (idx + 1) (clock + 30)).1 := by
          simp [pollLoopF, hc, hd]
        rw [hrec2] at h
        obtain ⟨c, hlast⟩ := ih (idx + 1) (clock + 30) (by omega) (by omega) h
        refine ⟨c, ?_⟩
        rw [hrec1]
        have hne : (pollLoopF statuses f (idx + 1) (clock + 30)).1 ≠ [] := by
          intro hnil
          rw [hnil] at hlast
          simp at hlast
        rw [getLast?_cons_of_ne_nil _ _ (by simp [hne]),
          getLast?_cons_of_ne_nil _ _ (by simp [hne]),
          getLast?_cons_of_ne_nil _ _ hne]
        exact hlast

/-- C10: in every poll loop run from its entry (status unknown, elapsed
clock 0), the very first events are the timeout check, one full 30-unit
sleep, and only then the first status query — so a full interval elapses
before the first query even when the report is already done; every sleep
event is immediately preceded by a timeout-check event; and when the loop
ends by the timeout branch (result false), the final event of the whole
trace is a timeout check — no status query is ever issued after it. -/
theorem c10_sleep_before_first_query_and_timeout_last (statuses : Nat → String) :
    (∃ rest, (pollLoop statuses).1
        = PollEvent.timeoutCheck 0 :: PollEvent.sleep :: PollEvent.query 0 :: rest)
    ∧ (∀ j, (pollLoop statuses).1.get? (j + 1) = some PollEvent.sleep →
        ∃ c, (pollLoop statuses).1.get? j = some (PollEvent.timeoutCheck c))
    ∧ ((pollLoop statuses).2 = false →
        ∃ c, (pollLoop statuses).1.getLast? = some (PollEvent.timeoutCheck c)) := by
  refine ⟨?_, ?_, ?_⟩
  · exact pollLoopF_head statuses 62 0 0 (by omega) (by omega)
  · intro j h
    exact pollLoopF_sleep_preceded statuses 62 0 0 j h
  · intro h
    exact pollLoopF_timeout_last statuses 62 0 0 (by omega) (by omega) h

/-- C10 witness: with a gateway that always reports done, the trace still
begins with a timeout check, a sleep and then the first query; with a
gateway that never reports done, the loop result is the timeout and the
last event of the trace is the timeout check at elapsed clock 1830. -/
theorem c10_sleep_before_first_query_and_timeout_last_app :
    (∃ rest, (pollLoop (fun _ => "done")).1
        = PollEvent.timeoutCheck 0 :: PollEvent.sleep :: PollEvent.query 0 :: rest)
    ∧ (∃ c, (pollLoop (fun _ => "pending")).1.getLast?
        = some (PollEvent.timeoutCheck c))
    ∧ (∃ c, (pollLoop (fun _ => "pending")).1.get? 3
        = some (PollEvent.timeoutCheck c)) := by
  refine ⟨(c10_sleep_before_first_query_and_timeout_last (fun _ => "done")).1, ?_, ?_⟩
  · exact (c10_sleep_before_first_query_and_timeout_last (fun _ => "pending")).2.2 (by rfl)
  · exact (c10_sleep_before_first_query_and_timeout_last (fun _ => "pending")).2.1 3 (by rfl)

/-- C7 counterexample: the claim that the no-data outcome is a value
distinct from the error outcomes is false — when the report completes
but has no lines, fetch_cdr_data returns None, the very same value it
returns when polling times out or when report creation yields no id. -/
theorem c7_no_data_equals_failure_result :
    (fetch_cdr_data envEmptyDone (some 7)).2 = none
    ∧ (fetch_cdr_data envNeverDone (some 7)).2 = none
    ∧ (fetch_cdr_data envNoId (some 7)).2 = none
    ∧ (fetch_cdr_data envEmptyDone (some 7)).2 = (fetch_cdr_data envNeverDone (some 7)).2 := by
  refine ⟨by decide, by decide, by decide, by decide⟩

/-- C7 amended: fetch_cdr_data returns None both for the no-data case
(status done with empty report lines) and for the failure cases (creation
returned no id; polling timed out), so the caller cannot tell them
apart — the empty-data short-circuit exists, but not as a distinct
value. -/
theorem c7_none_on_empty_and_errors (env : FetchEnv) (num_days : Option Int)
    (ht : numDaysTruthy num_days = true) :
    (env.create_result = none → (fetch_cdr_data env num_days).2 = none)
    ∧ ((pollLoop env.statuses).2 = true → env.report_lines = [] →
        (fetch_cdr_data env num_days).2 = none)
    ∧ ((pollLoop env.statuses).2 = false → (fetch_cdr_data env num_days).2 = none) := by
  refine ⟨?_, ?_, ?_⟩
  · intro h
    simp [fetch_cdr_data, ht, h]
  · intro hp hl
    by_cases hcr : env.create_result.isNone
    · simp [fetch_cdr_data, ht, hcr]
    · simp [fetch_cdr_data, ht, hcr, hp, hl]
  · intro hp
    by_cases hcr : env.create_result.isNone
    · simp [fetch_cdr_data, ht, hcr]
    · simp [fetch_cdr_data, ht, hcr, hp]

/-- C7 witness: the amended statement applied to the three concrete
environments — done with no lines, never done, and creation failure —
each yielding None. -/
theorem c7_none_on_empty_and_errors_app :
    (fetch_cdr_data envEmptyDone (some 7)).2 = none
    ∧ (fetch_cdr_data envNeverDone (some 7)).2 = none
    ∧ (fetch_cdr_data envNoId (some 7)).2 = none := by
  refine ⟨?_, ?_, ?_⟩
  · exact (c7_none_on_empty_and_errors envEmptyDone (some 7) (by rfl)).2.1 (by decide) rfl
  · exact (c7_none_on_empty_and_errors envNeverDone (some 7) (by rfl)).2.2 (by decide)
  · exact (c7_none_on_empty_and_errors envNoId (some 7) (by rfl)).1 rfl

/-- C8 counterexample: the claim that out-of-range creation parameters
make the poller fail with InvalidParameters before any creation request
is false — with a day count of 99 the first gateway call issued is the
creation request with 99, and the whole fetch then completes normally. -/
theorem c8_out_of_range_days_still_creates :
    fetch_cdr_data envCreateOk (some 99)
      = ([GatewayCall.createDays 99, GatewayCall.statusQuery 0, GatewayCall.getLines],
         some ([[("h", "1")]], some "R9")) := by
  decide

/-- C8 amended: the poller performs no parameter validation of its own —
for every nonzero day count, in or out of range, its first gateway call
is the creation request carrying that day count unchanged, and no
InvalidParameters failure exists. Range validation lives only in the
configuration layer: the day-count validator accepts exactly 0 (besides
None and the empty string) and the integers 1..31, and the date validator
accepts a parsed date pair exactly when the end is not before the start
and the span is at most 30 days. -/
theorem c8_poller_unvalidated_config_validates :
    (∀ (env : FetchEnv) (n : Int), n ≠ 0 →
        ∃ rest, (fetch_cdr_data env (some n)).1 = GatewayCall.createDays n :: rest)
    ∧ (∀ n : Int,
        (validate_number_of_days_for_cdr_report (ConfigVal.intVal n) = Except.ok (some n))
          ↔ (n = 0 ∨ (1 ≤ n ∧ n ≤ 31)))
    ∧ (∀ (s e : String) (ds de : Nat),
        parseDateCivil s = some ds → parseDateCivil e = some de →
        (validate_dates (some s) (some e) = Except.ok () ↔ (ds ≤ de ∧ de - ds ≤ 30))) := by
  refine ⟨?_, ?_, ?_⟩
  · intro env n hn
    have ht : numDaysTruthy (some n) = true := by
      simp [numDaysTruthy]
      exact hn
    by_cases hcr : env.create_result.isNone
    · exact ⟨[], by simp [fetch_cdr_data, ht, hcr]⟩
    · by_cases hp : (pollLoop env.statuses).2
      · by_cases hl : env.report_lines.isEmpty
        · exact ⟨pollCalls (pollLoop env.statuses).1 ++ [GatewayCall.getLines],
            by simp [fetch_cdr_data, ht, hcr, hp, hl]⟩
        · exact ⟨pollCalls (pollLoop env.statuses).1 ++ [GatewayCall.getLines],
            by simp [fetch_cdr_data, ht, hcr, hp, hl]⟩
      · exact ⟨pollCalls (pollLoop env.statuses).1,
          by simp [fetch_cdr_data, ht, hcr, hp]⟩
  · intro n
    by_cases h0 : n = 0
    · simp [validate_number_of_days_for_cdr_report, h0]
    · by_cases hr : 1 ≤ n ∧ n ≤ 31
      · simp [validate_number_of_days_for_cdr_report, h0, hr]
      · simp only [validate_number_of_days_for_cdr_report]
        rw [if_neg h0, if_neg hr]
        constructor
        · intro h
          simp at h
        · intro h
          exfalso
          rcases h with h | h
          · exact h0 h
          · exact hr h
  · intro s e ds de hs he
    simp only [validate_dates, hs, he]
    by_cases h1 : de < ds
    · rw [if_pos h1]
      constructor
      · intro h
        simp at h
      · intro h
        omega
    · rw [if_neg h1]
      by_cases h2 : de - ds > 30
      · rw [if_pos h2]
        constructor
        · intro h
          simp at h
        · intro h
          omega
      · rw [if_neg h2]
        constructor
        · intro h
          omega
        · intro h
          rfl

/-- C8 witness: the amended statement applied at day count 99 (creation
request still issued first), at day count 7 (accepted by the
configuration validator), and at the date pair 2024-01-01 .. 2024-01-15
(accepted by the date validator). -/
theorem c8_poller_unvalidated_config_validates_app :
    (∃ rest, (fetch_cdr_data envCreateOk (some 99)).1 = GatewayCall.createDays 99 :: rest)
    ∧ validate_number_of_days_for_cdr_report (ConfigVal.intVal 7) = Except.ok (some 7)
    ∧ validate_dates (some "2024-01-01") (some "2024-01-15") = Except.ok () := by
  refine ⟨?_, ?_, ?_⟩
  · exact c8_poller_unvalidated_config_validates.1 envCreateOk 99 (by decide)
  · exact (c8_poller_unvalidated_config_validates.2.1 7).mpr (by omega)
  · exact (c8_poller_unvalidated_config_validates.2.2 "2024-01-01" "2024-01-15"
      (daysFromCivil 2024 1 1) (daysFromCivil 2024 1 15) (by decide) (by decide)).mpr
      (by decide)

theorem run_report_snd_cases (env : Env) :
    (run_report env).2 = RunResult.returned
    ∨ ∃ c, (handle_existing_reports env).2 = Except.error (PyExn.systemExit c)
        ∧ (run_report env).2 = RunResult.raisedSystemExit c := by
  rcases h : (handle_existing_reports env).2 with e | b
  · cases e with
    | systemExit c => right; exact ⟨c, rfl, by simp [run_report, h]⟩
    | exc msg => left; simp [run_report, h]
  · cases b with
    | false => left; simp [run_report, h]
    | true =>
      left
      simp only [run_report, h]
      rcases env.fetch_result with _ | ⟨data, rid⟩
      · simp
      · by_cases hd : data.isEmpty
        · simp [hd]
        · by_cases hw : env.write_csv_raises
          · simp [hd, hw]
          · rcases hp : process_all_cdr_records initialMetrics data with m | m
            · simp [hd, hw, hp]
            · simp [hd, hw, hp]

theorem handle_systemExit_cases (env : Env) (c : Nat) :
    (handle_existing_reports env).2 = Except.error (PyExn.systemExit c) →
    c = 1 ∧ ∃ reports, env.list_reports_result = some reports
        ∧ reports.length = 50 ∧ env.delete_choice = "3" := by
  intro h
  rcases hl : env.list_reports_result with _ | reports
  · simp only [handle_existing_reports, hl] at h
    simp at h
  · simp only [handle_existing_reports, hl] at h
    by_cases h50 : reports.length = 50
    · rw [if_pos h50] at h
      by_cases h1 : env.delete_choice = "1"
      · rw [if_pos h1] at h
        rcases hr : env.refetch_result with _ | after <;> rw [hr] at h <;> simp at h
      · rw [if_neg h1] at h
        by_cases h2 : env.delete_choice = "2"
        · rw [if_pos h2] at h
          rcases hr : env.refetch_result with _ | after <;> rw [hr] at h <;> simp at h
        · rw [if_neg h2] at h
          by_cases h3 : env.delete_choice = "3"
          · rw [if_pos h3] at h
            simp at h
            exact ⟨h.symm, reports, rfl, h50, h3⟩
          · rw [if_neg h3] at h
            rcases hr : env.refetch_result with _ | after <;> rw [hr] at h <;> simp at h
    · rw [if_neg h50] at h
      simp at h

/-- C5 counterexample: the claim that the orchestrator never lets any
exception propagate (and that abort terminates without raising) is
false — at capacity with the operator choosing option 3, the quota
handler calls sys.exit(1), and the resulting SystemExit escapes
run_report, whose handler catches only Exception. -/
theorem c5_abort_raises_system_exit :
    run_report envAbort = ([], RunResult.raisedSystemExit 1) := by
  decide

/-- C5 amended: every Exception-derived error is caught at the run_report
boundary and converted into a normal return; the only exception that can
escape to the caller is the SystemExit(1) raised by the abort choice of
quota remediation (option 3 at exactly 50 stored reports), which
terminates the process with exit status 1 instead of returning. -/
theorem c5_only_system_exit_escapes (env : Env) :
    (run_report env).2 = RunResult.returned
    ∨ ((run_report env).2 = RunResult.raisedSystemExit 1
        ∧ ∃ reports, env.list_reports_result = some reports
            ∧ reports.length = 50 ∧ env.delete_choice = "3") := by
  rcases run_report_snd_cases env with h | ⟨c, hh, hr⟩
  · left
    exact h
  · right
    obtain ⟨hc1, rest⟩ := handle_systemExit_cases env c hh
    subst hc1
    exact ⟨hr, rest⟩

/-- C6: the claim that the remote report is deleted whenever lines were
fetched and parsed, regardless of downstream failures, is false on the
code — in a run whose fetch returned one parsed row under report id R1
but whose CSV write raises, run_report makes no delete_report call at
all (the exception is caught and the delete statement is never reached);
the delete happens only in the fully successful run. -/
theorem c6_delete_skipped_on_persist_failure :
    envPersistFail.fetch_result = some ([[("Answered", "true")]], some "R1")
    ∧ run_report envPersistFail = ([], RunResult.returned)
    ∧ ¬ some "R1" ∈ (run_report envPersistFail).1
    ∧ run_report envPersistOk = ([some "R1"], RunResult.returned) := by
  refine ⟨rfl, by decide, by decide, by decide⟩
